import Mathlib

/-!
Shallow embedding of `tools/mcp_managers/client_manager.py` (class
`MCPClientManager`): the session registry, the scenario loader, the tool
invoker and the call log.  External collaborators — the JSON codec
(`json.loads`) and the remote MCP client (`fastmcp.Client`) — are
parameters of the operations; Python exceptions are modelled with
`Except`, printed diagnostics and remote invocations are returned as
explicit traces.
-/

set_option autoImplicit false

namespace MCPClientManager

mutual
/-- JSON values, as produced by `json.loads` and passed as tool arguments.
Object fields are kept in insertion order (Python dicts preserve it). -/
inductive JVal where
  | null
  | jbool (b : Bool)
  | num (n : Int)
  | str (s : String)
  | arr (elems : JArr)
  | obj (fields : JObj)
  deriving DecidableEq

/-- A JSON array's elements. -/
inductive JArr where
  | nil
  | cons (hd : JVal) (tl : JArr)
  deriving DecidableEq

/-- A JSON object's field list. -/
inductive JObj where
  | nil
  | cons (key : String) (val : JVal) (tl : JObj)
  deriving DecidableEq
end

/-- Python truthiness of a JSON value (`if ... and scenario:`). -/
def JVal.truthy : JVal → Bool
  | .null => false
  | .jbool b => b
  | .num n => n != 0
  | .str s => !s.data.isEmpty
  | .arr .nil => false
  | .arr (.cons _ _) => true
  | .obj .nil => false
  | .obj (.cons _ _ _) => true

/-- `isinstance(tool_args, str)`. -/
def JVal.isStr : JVal → Bool
  | .str _ => true
  | _ => false

/-- Python truthiness of an optional value (`None` is falsy). -/
def pyTruthy : Option JVal → Bool
  | none => false
  | some v => v.truthy

/-- `d.get(k)` / `d[k]` on an association-list model of a Python dict
(first matching key wins; dicts never hold duplicate keys). -/
def getEntry {α : Type} : List (String × α) → String → Option α
  | [], _ => none
  | (k1, v1) :: rest, k => if k1 = k then some v1 else getEntry rest k

/-- `d[k] = v`: replace the first binding of `k`, or append a new one. -/
def updEntry {α : Type} : List (String × α) → String → α → List (String × α)
  | [], k, v => [(k, v)]
  | (k1, v1) :: rest, k, v =>
    if k1 = k then (k, v) :: rest else (k1, v1) :: updEntry rest k v

/-- `del d[k]`: drop the first binding of `k` (no-op when absent; the
source only deletes keys it has just looked up). -/
def delEntry {α : Type} : List (String × α) → String → List (String × α)
  | [], _ => []
  | (k1, v1) :: rest, k => if k1 = k then rest else (k1, v1) :: delEntry rest k

/-- `str.split(sep)` for a one-character separator, on character lists
(the source only ever splits on `"-"`). -/
def splitChar (c : Char) : List Char → List (List Char)
  | [] => [[]]
  | ch :: rest =>
    if ch = c then [] :: splitChar c rest
    else
      match splitChar c rest with
      | [] => [[ch]]
      | g :: gs => (ch :: g) :: gs

/-- `client_id.split("-")[0]`: the tool class (group) of a session id. -/
def toolClassOf (client_id : String) : String :=
  ⟨(splitChar '-' client_id.data).headD []⟩

/-- `client_id.split("-")[-1]`: the de-scoped id used as the log key. -/
def noClassClientId (client_id : String) : String :=
  ⟨(splitChar '-' client_id.data).getLastD []⟩

/-- The characters after the first `'-'`, when one occurs. -/
def afterFirstDash : List Char → Option (List Char)
  | [] => none
  | ch :: rest => if ch = '-' then some rest else afterFirstDash rest

/-- `tool_name.split("-", 1)[-1]`: strip everything up to the first dash
(the whole string when it has no dash). -/
def stripToolClass (tool_name : String) : String :=
  match afterFirstDash tool_name.data with
  | some rest => ⟨rest⟩
  | none => tool_name

/-- Whether `pat` is a prefix of `s` (on character lists). -/
def leadsWith : List Char → List Char → Bool
  | [], _ => true
  | _ :: _, [] => false
  | p :: ps, c :: cs => p = c && leadsWith ps cs

/-- Whether `pat` occurs as a contiguous subsequence of `s`. -/
def containsAux (pat : List Char) : List Char → Bool
  | [] => leadsWith pat []
  | c :: cs => leadsWith pat (c :: cs) || containsAux pat cs

/-- Python's `pat in s` substring test. -/
def strContains (s pat : String) : Bool :=
  containsAux pat.data s.data

/-- A registry entry: `{"client": ..., "status": ...}`.  Client handles are
opaque Python objects; we model them by a `Nat` tag, freshly allocated at
each `Client(...)` construction. -/
structure ClientInfo where
  client : Nat
  status : Bool
  deriving DecidableEq

/-- A recorded conversational exchange (the `"chat"` part of `add_log`). -/
structure ChatLogRecord where
  user : String
  assistant : String
  deriving DecidableEq

/-- A recorded tool invocation (the `"tool"` part of `add_log`). -/
structure ToolLogRecord where
  tool_name : String
  tool_args : JVal
  tool_result : String
  deriving DecidableEq

/-- One entry appended to `log_info` by `add_log`. -/
structure LogEntry where
  chat : Option ChatLogRecord
  tool : Option ToolLogRecord
  deriving DecidableEq

/-- The `info` argument of `add_log`. -/
structure AddLogInfo where
  chat : Option ChatLogRecord
  tool : Option ToolLogRecord
  deriving DecidableEq

/-- The manager's mutable state: the session registry `clients`, the
operation catalog `class_to_path_mapping`, the call log `log_info`, and a
counter supplying fresh client handles. -/
structure ManagerState where
  clients : List (String × ClientInfo)
  class_to_path_mapping : List (String × String)
  log_info : List (String × List LogEntry)
  nextClient : Nat
  deriving DecidableEq

/-- Python exceptions that the manager's code paths can raise or catch. -/
inductive PyError where
  | keyError (key : String)
  | jsonDecodeError (text : String)
  | typeError (msg : String)
  | toolError (msg : String)
  | otherError (msg : String)
  deriving DecidableEq

/-- Rendering of an exception inside an f-string (`{e}`). -/
def PyError.msg : PyError → String
  | .keyError k => k
  | .jsonDecodeError s => s
  | .typeError m => m
  | .toolError m => m
  | .otherError m => m

/-- Outcome of one remote `client.call_tool` invocation: a textual payload
(`result.content[0].text`), a `ToolError`, or any other exception. -/
inductive RemoteOutcome where
  | ok (text : String)
  | toolErr (msg : String)
  | err (msg : String)
  deriving DecidableEq

/-- One remote invocation, as observed by the remote side. -/
structure RemoteCall where
  client : Nat
  tool_name : String
  tool_args : JVal
  deriving DecidableEq

/-- The behaviour of the remote MCP clients (an external collaborator):
for a client handle, a stripped tool name and arguments, what the call
returns or raises. -/
def Remote : Type := Nat → String → JVal → RemoteOutcome

/-- The behaviour of `json.loads` (an external collaborator): `none` for a
text that raises `JSONDecodeError`. -/
def JsonLoads : Type := String → Option JVal

deriving instance DecidableEq for Except

/-- Result of one manager operation: the returned value or the escaping
exception, the state afterwards, the remote calls made, and the printed
diagnostics, in order. -/
structure OpResult (α : Type) where
  result : Except PyError α
  state : ManagerState
  calls : List RemoteCall
  printed : List String
  deriving DecidableEq

/-- `set_status` (lines 126-129): mark an existing session ready; a no-op
for an unknown id. -/
def set_status (st : ManagerState) (client_id : String) : ManagerState :=
  match getEntry st.clients client_id with
  | some ci =>
    { st with clients := updEntry st.clients client_id { ci with status := true } }
  | none => st

/-- `get_client` (lines 131-144): return the registered handle and status,
or construct and register a fresh not-ready handle; raises `KeyError` when
the derived tool class is absent from `class_to_path_mapping`. -/
def get_client (st : ManagerState) (client_id : String) :
    (Except PyError (Nat × Bool)) × ManagerState :=
  match getEntry st.clients client_id with
  | some ci => (.ok (ci.client, ci.status), st)
  | none =>
    match getEntry st.class_to_path_mapping (toolClassOf client_id) with
    | none => (.error (.keyError (toolClassOf client_id)), st)
    | some _path =>
      (.ok (st.nextClient, false),
       { st with
         clients := updEntry st.clients client_id ⟨st.nextClient, false⟩
         nextClient := st.nextClient + 1 })

/-- `add_log` (lines 92-124): append a chat/tool record under the
de-scoped client id; a key absent from `log_info` is first bound to `[]`,
and an empty record is not appended. -/
def add_log (st : ManagerState) (client_id : String) (info : AddLogInfo) :
    ManagerState :=
  let key := noClassClientId client_id
  let base := match getEntry st.log_info key with
    | some _ => st.log_info
    | none => updEntry st.log_info key []
  match info.chat, info.tool with
  | none, none => { st with log_info := base }
  | _, _ =>
    { st with
      log_info := updEntry base key ((getEntry base key).getD [] ++ [⟨info.chat, info.tool⟩]) }

/-- `_call_tool_async` (lines 249-267): strip the tool-class prefix, parse
textual arguments with `json.loads` (raising on invalid text, before any
remote call), invoke the remote client, log the invocation and return the
payload text. -/
def call_tool_async (jl : JsonLoads) (remote : Remote) (tool_name : String)
    (tool_args : JVal) (client : Nat) (client_id : String) (st : ManagerState) :
    OpResult String :=
  let tn := stripToolClass tool_name
  let run := fun (args : JVal) =>
    match remote client tn args with
    | .ok text =>
      ⟨.ok text, add_log st client_id ⟨none, some ⟨tn, args, text⟩⟩, [⟨client, tn, args⟩], []⟩
    | .toolErr m => ⟨.error (.toolError m), st, [⟨client, tn, args⟩], []⟩
    | .err m => (⟨.error (.otherError m), st, [⟨client, tn, args⟩], []⟩ : OpResult String)
  match tool_args with
  | .str s =>
    match jl s with
    | none => ⟨.error (.jsonDecodeError s), st, [], []⟩
    | some args => run args
  | args => run args

/-- The body of `call_tool` (lines 230-247) past the `load_scenario`
delegation test: dispatch through the bridge, print and return the result,
catching `ToolError` and any other exception (which leaves the return
value `None`). -/
def call_tool_generic (jl : JsonLoads) (remote : Remote) (tool_name : String)
    (tool_args : JVal) (client_id : String) (st : ManagerState) :
    OpResult (Option String) :=
  match get_client st client_id with
  | (.error e, st1) => ⟨.error e, st1, [], []⟩
  | (.ok (client, _status), st1) =>
    match call_tool_async jl remote tool_name tool_args client client_id st1 with
    | ⟨.ok text, st2, calls, prints⟩ =>
      ⟨.ok (some text), st2, calls, prints ++ [s!"{tool_name} execute: {text}"]⟩
    | ⟨.error (.toolError m), st2, calls, prints⟩ =>
      ⟨.ok none, st2, calls, prints ++ [s!"{tool_name} fail before execution: {m}"]⟩
    | ⟨.error e, st2, calls, prints⟩ =>
      ⟨.ok none, st2, calls, prints ++ [s!"{tool_name} raise an unexpected error: {e.msg}"]⟩

/-- The verification-mismatch diagnostic printed by `load_scenario`
(identical on comparison mismatch and on parse failure). -/
def mismatchMsg : String :=
  "Load scenario failed. The loaded scenario mismatch with saved scenario."

/-- The reply of `load_scenario` when the session is already initialized
(or the scenario is falsy). -/
def alreadyInitializedMsg : String :=
  "This client is already initialized. Skipping..."

/-- `load_scenario` (lines 190-228): get or create the session; when it is
not ready and the scenario is truthy, apply the scenario via the remote
`load_scenario` tool; with `check`, read the state back through
`call_tool`/`save_scenario` (which for that name takes the generic path)
and mark the session ready only when the parsed save equals the scenario;
without `check`, mark it ready unconditionally.  Failures of the load call
itself are printed and re-raised. -/
def load_scenario (jl : JsonLoads) (remote : Remote) (client_id : String)
    (scenario : Option JVal) (check : Bool) (st : ManagerState) :
    OpResult String :=
  match get_client st client_id with
  | (.error e, st1) => ⟨.error e, st1, [], []⟩
  | (.ok (client, status), st1) =>
    match scenario with
    | none => ⟨.ok alreadyInitializedMsg, st1, [], []⟩
    | some sc =>
      if !status && sc.truthy then
        let tool_args := JVal.obj (.cons "scenario" sc .nil)
        match call_tool_async jl remote "load_scenario" tool_args client client_id st1 with
        | ⟨.error e, st2, calls, prints⟩ =>
          ⟨.error e, st2, calls, prints ++ [s!"Load scenario failed: {e.msg}"]⟩
        | ⟨.ok result, st2, calls, prints⟩ =>
          if check then
            match call_tool_generic jl remote "save_scenario" (.obj .nil) client_id st2 with
            | ⟨.error e, st3, calls2, prints2⟩ =>
              -- only an unknown group raises here, impossible for a session
              -- that `get_client` just found; caught, printed and re-raised
              ⟨.error e, st3, calls ++ calls2,
               prints ++ prints2 ++ [s!"Load scenario failed: {e.msg}"]⟩
            | ⟨.ok saved, st3, calls2, prints2⟩ =>
              match saved with
              | none =>
                -- json.loads(None) raises TypeError, caught by the bare except
                ⟨.ok result, st3, calls ++ calls2, prints ++ prints2 ++ [mismatchMsg]⟩
              | some savedText =>
                match jl savedText with
                | none =>
                  ⟨.ok result, st3, calls ++ calls2, prints ++ prints2 ++ [mismatchMsg]⟩
                | some v =>
                  if sc = v then
                    ⟨.ok result, set_status st3 client_id, calls ++ calls2,
                     prints ++ prints2 ++ [s!"Load scenario succeeded with checking: {result}"]⟩
                  else
                    ⟨.ok result, st3, calls ++ calls2, prints ++ prints2 ++ [mismatchMsg]⟩
          else
            ⟨.ok result, set_status st2 client_id, calls,
             prints ++ [s!"Load scenario succeeded without checking: {result}"]⟩
      else ⟨.ok alreadyInitializedMsg, st1, [], []⟩

/-- `call_tool` (lines 230-247): a tool name containing `"load_scenario"`
is delegated to `load_scenario` (with the arguments as the scenario and no
check); every other name takes the generic path. -/
def call_tool (jl : JsonLoads) (remote : Remote) (tool_name : String)
    (tool_args : JVal) (client_id : String) (st : ManagerState) :
    OpResult (Option String) :=
  if strContains tool_name "load_scenario" then
    let r := load_scenario jl remote client_id (some tool_args) false st
    ⟨r.result.map some, r.state, r.calls, r.printed⟩
  else
    call_tool_generic jl remote tool_name tool_args client_id st

/-- The observable steps of `close_client`, in execution order. -/
inductive CloseEvent where
  | releaseAttempt (client : Nat) (ok : Bool)
  | removeEntry (client_id : String)
  deriving DecidableEq

/-- Whether an event is a resource-release attempt. -/
def CloseEvent.isRelease : CloseEvent → Bool
  | .releaseAttempt _ _ => true
  | _ => false

/-- Whether an event is a registry-entry removal. -/
def CloseEvent.isRemove : CloseEvent → Bool
  | .removeEntry _ => true
  | _ => false

/-- Whether a registry removal occurs strictly before a release attempt in
an event trace (the ordering the specification requires of `close`). -/
def removalPrecedesRelease (evs : List CloseEvent) : Bool :=
  match evs.findIdx? CloseEvent.isRemove, evs.findIdx? CloseEvent.isRelease with
  | some i, some j => decide (i < j)
  | _, _ => false

/-- Result of `close_client`: state, printed diagnostics, and the ordered
release/remove events. -/
structure CloseResult where
  state : ManagerState
  printed : List String
  events : List CloseEvent
  deriving DecidableEq

/-- `close_client` (lines 146-156): for a registered session, await
`client.close()` (whose failure is caught and printed) and then, in the
`finally` block, delete the registry entry.  `closeFails` gives the remote
resource-release behaviour per handle (`some msg` = raises). -/
def close_client (closeFails : Nat → Option String) (st : ManagerState)
    (client_id : String) : CloseResult :=
  match getEntry st.clients client_id with
  | none => ⟨st, [], []⟩
  | some ci =>
    let errPrints := match closeFails ci.client with
      | some m => [s!"Error closing client {client_id}: {m}"]
      | none => []
    ⟨{ st with clients := delEntry st.clients client_id },
     errPrints ++ [s!"Client {client_id} closed and removed"],
     [.releaseAttempt ci.client (closeFails ci.client == none), .removeEntry client_id]⟩

/-- One awaited close inside `close_all_clients`' loop: run `close_client`
on the current state and collect its diagnostics.  (`close_client` never
re-raises — its own handler swallows release errors — so the loop's
`except` branch is unreachable.) -/
def closeStep (closeFails : Nat → Option String) (acc : ManagerState × List String)
    (cid : String) : ManagerState × List String :=
  let r := close_client closeFails acc.1 cid
  (r.state, acc.2 ++ r.printed)

/-- `close_all_clients` (lines 158-171): submit a close for every
registered id (`list(self.clients.keys())` is snapshotted first), await
each, then reset `log_info` to empty. -/
def close_all_clients (closeFails : Nat → Option String) (st : ManagerState)
    (_ignore_stateless_client : Bool) : ManagerState × List String :=
  let ids := st.clients.map Prod.fst
  let folded := ids.foldl (closeStep closeFails) (st, [])
  ({ folded.1 with log_info := [] }, folded.2)

/-!
Interleaving model of `get_client` for the concurrency claim: the body of
`get_client` is cut at its genuine Python interleaving points — the
registry lookup (line 135), the catalog lookup plus `Client(...)`
construction (lines 138-139, where the GIL can be released), and the
registry store (lines 140-143).  Two caller threads each run these atomic
steps against the shared state, in an order chosen by a schedule.
-/

/-- The program counter of one thread executing `get_client`. -/
inductive GCPhase where
  | start
  | checkedAbsent
  | failed (group : String)
  | constructed (handle : Nat)
  | done (handle : Nat) (status : Bool)
  deriving DecidableEq

/-- Shared state of the two-caller race: the manager state, each thread's
phase, and how many `Client(...)` constructions have happened. -/
structure RaceState where
  mgr : ManagerState
  t1 : GCPhase
  t2 : GCPhase
  constructions : Nat
  deriving DecidableEq

/-- One atomic step of `get_client` for a thread at phase `ph`. -/
def gcStep (client_id : String) (ph : GCPhase) (st : ManagerState)
    (constructions : Nat) : GCPhase × ManagerState × Nat :=
  match ph with
  | .start =>
    match getEntry st.clients client_id with
    | some ci => (.done ci.client ci.status, st, constructions)
    | none => (.checkedAbsent, st, constructions)
  | .checkedAbsent =>
    match getEntry st.class_to_path_mapping (toolClassOf client_id) with
    | none => (.failed (toolClassOf client_id), st, constructions)
    | some _path =>
      (.constructed st.nextClient,
       { st with nextClient := st.nextClient + 1 }, constructions + 1)
  | .constructed h =>
    (.done h false,
     { st with clients := updEntry st.clients client_id ⟨h, false⟩ }, constructions)
  | other => (other, st, constructions)

/-- Advance the thread selected by `tid` (`true` = first caller). -/
def raceStep (client_id : String) (rs : RaceState) (tid : Bool) : RaceState :=
  if tid then
    let r := gcStep client_id rs.t1 rs.mgr rs.constructions
    { rs with t1 := r.1, mgr := r.2.1, constructions := r.2.2 }
  else
    let r := gcStep client_id rs.t2 rs.mgr rs.constructions
    { rs with t2 := r.1, mgr := r.2.1, constructions := r.2.2 }

/-- Run both callers under a schedule. -/
def runRace (client_id : String) (rs : RaceState) (sched : List Bool) : RaceState :=
  sched.foldl (raceStep client_id) rs

/-- The handle a finished caller observed, when it finished. -/
def GCPhase.observed : GCPhase → Option Nat
  | .done h _ => some h
  | _ => none

end MCPClientManager

namespace MCPClientManager

/-! Concrete fixtures used by the sanity checks and the witnesses. -/

/-- A catalog with two groups. -/
def catalog0 : List (String × String) :=
  [("fs", "/srv/fs_server.py"), ("calc", "/srv/calc_server.py")]

/-- An initial manager state: empty registry and log over `catalog0`. -/
def st0 : ManagerState := ⟨[], catalog0, [], 0⟩

/-- `st0` with `"fs-1"` registered and not ready (handle `0`). -/
def st1 : ManagerState := ⟨[("fs-1", ⟨0, false⟩)], catalog0, [], 1⟩

/-- `st0` with `"fs-1"` registered and ready. -/
def st1r : ManagerState := ⟨[("fs-1", ⟨0, true⟩)], catalog0, [], 1⟩

/-- A sample scenario payload: `{"files": ["a.txt"]}`. -/
def sc0 : JVal := .obj (.cons "files" (.arr (.cons (.str "a.txt") .nil)) .nil)

/-- A deliberately different payload: `{"files": []}`. -/
def sc1 : JVal := .obj (.cons "files" (.arr .nil) .nil)

/-- A concrete `json.loads`: `"SC0"` parses to `sc0`, `"SC1"` to `sc1`,
everything else raises. -/
def jl0 : JsonLoads := fun s =>
  if s = "SC0" then some sc0 else if s = "SC1" then some sc1 else none

/-- A faithful remote: saving echoes `"SC0"`, other calls return `"done"`. -/
def remoteGood : Remote := fun _client tn _args =>
  if tn = "save_scenario" then .ok "SC0" else .ok "done"

/-- A remote whose save echoes a mutated copy (`"SC1"`). -/
def remoteMutated : Remote := fun _client tn _args =>
  if tn = "save_scenario" then .ok "SC1" else .ok "done"

/-- A remote whose save echoes unparseable text. -/
def remoteGarbled : Remote := fun _client tn _args =>
  if tn = "save_scenario" then .ok "<garbage>" else .ok "done"

/-- The condition under which a checked load marks a session ready: the
remote's echoed save parses back structurally equal to the loaded
scenario (`scenario == json.loads(saved_scenario)` on line 214). -/
def echoVerified (jl : JsonLoads) (remote : Remote) (client : Nat) (sc : JVal) : Bool :=
  match remote client "save_scenario" (.obj .nil) with
  | .ok text => decide (jl text = some sc)
  | _ => false

/-- A remote that rejects every call before execution (`ToolError`). -/
def remoteRejects : Remote := fun _client _tn _args => .toolErr "refused"

/-- A remote that raises an unknown error class on every call. -/
def remoteBroken : Remote := fun _client _tn _args => .err "boom"

example : stripToolClass "GorillaFileSystem-load_scenario" = "load_scenario" := by decide
example : stripToolClass "load_scenario" = "load_scenario" := by decide
example : strContains "load_scenario" "load_scenario" = true := by decide
example : strContains "save_scenario" "load_scenario" = false := by decide
example : strContains "Gorilla-load_scenario" "load_scenario" = true := by decide
example : toolClassOf "calc-1" = "calc" := by decide
example : noClassClientId "calc-1" = "1" := by decide

example :
    (load_scenario jl0 remoteGood "fs-1" (some sc0) true st1).result = .ok "done" := by
  decide

example :
    getEntry (load_scenario jl0 remoteGood "fs-1" (some sc0) true st1).state.clients "fs-1"
      = some ⟨0, true⟩ := by
  decide

example :
    getEntry (load_scenario jl0 remoteMutated "fs-1" (some sc0) true st1).state.clients "fs-1"
      = some ⟨0, false⟩ := by
  decide

example :
    mismatchMsg ∈ (load_scenario jl0 remoteMutated "fs-1" (some sc0) true st1).printed := by
  decide

example :
    getEntry (load_scenario jl0 remoteGarbled "fs-1" (some sc0) true st1).state.clients "fs-1"
      = some ⟨0, false⟩ := by
  decide

example :
    load_scenario jl0 remoteGood "fs-1" (some sc1) true st1r
      = ⟨.ok alreadyInitializedMsg, st1r, [], []⟩ := by
  decide

example :
    (load_scenario jl0 remoteGood "fs-1" none false st0).result
      = .ok alreadyInitializedMsg := by
  decide

example :
    (call_tool jl0 remoteRejects "fs-delete" (.obj .nil) "fs-1" st1).result = .ok none := by
  decide

example :
    (call_tool jl0 remoteBroken "fs-delete" (.obj .nil) "fs-1" st1).printed
      = ["fs-delete raise an unexpected error: boom"] := by
  decide

example :
    (close_client (fun _ => some "EPIPE") st1 "fs-1").events
      = [.releaseAttempt 0 false, .removeEntry "fs-1"] := by
  decide

example :
    (close_all_clients (fun _ => some "EPIPE") st1 false).1.clients = [] := by
  decide

/-! Helper lemmas about the dict model and state preservation. -/

theorem getEntry_updEntry_self {α : Type} (l : List (String × α)) (k : String) (v : α) :
    getEntry (updEntry l k v) k = some v := by
  induction l with
  | nil => simp [updEntry, getEntry]
  | cons p rest ih =>
    obtain ⟨k1, v1⟩ := p
    by_cases h : k1 = k <;> simp [updEntry, getEntry, h, ih]

theorem getEntry_none_of_not_mem {α : Type} (l : List (String × α)) (k : String)
    (h : k ∉ l.map Prod.fst) : getEntry l k = none := by
  induction l with
  | nil => rfl
  | cons p rest ih =>
    obtain ⟨k1, v1⟩ := p
    simp only [List.map_cons, List.mem_cons] at h
    push_neg at h
    simp [getEntry, Ne.symm h.1, ih h.2]

theorem getEntry_delEntry_self {α : Type} (l : List (String × α)) (k : String)
    (h : (l.map Prod.fst).Nodup) : getEntry (delEntry l k) k = none := by
  induction l with
  | nil => rfl
  | cons p rest ih =>
    obtain ⟨k1, v1⟩ := p
    simp only [List.map_cons, List.nodup_cons] at h
    by_cases hk : k1 = k
    · subst hk
      simpa [delEntry] using getEntry_none_of_not_mem rest k1 h.1
    · simp [delEntry, getEntry, hk, ih h.2]

theorem get_client_present {st : ManagerState} {client_id : String} {ci : ClientInfo}
    (h : getEntry st.clients client_id = some ci) :
    get_client st client_id = (.ok (ci.client, ci.status), st) := by
  simp [get_client, h]

theorem add_log_clients (st : ManagerState) (client_id : String) (info : AddLogInfo) :
    (add_log st client_id info).clients = st.clients := by
  unfold add_log
  cases info.chat <;> cases info.tool <;> simp

theorem add_log_catalog (st : ManagerState) (client_id : String) (info : AddLogInfo) :
    (add_log st client_id info).class_to_path_mapping = st.class_to_path_mapping := by
  unfold add_log
  cases info.chat <;> cases info.tool <;> simp

theorem set_status_present {st : ManagerState} {client_id : String} {ci : ClientInfo}
    (h : getEntry st.clients client_id = some ci) :
    (set_status st client_id).clients
      = updEntry st.clients client_id ⟨ci.client, true⟩ := by
  simp [set_status, h]

/-! The claim theorems, their witnesses and counterexamples. -/

/-- C10: `close_all_clients` unconditionally resets the whole in-memory
call log to empty after attempting every close — for every prior log
content and every combination of release failures. -/
theorem close_all_clients_clears_log (closeFails : Nat → Option String)
    (st : ManagerState) (ig : Bool) :
    (close_all_clients closeFails st ig).1.log_info = [] := by
  simp [close_all_clients]

/-- C2: a `load_scenario` call on a session whose ready flag is already
true performs no remote call at all, changes nothing, and returns the
"already initialized" skip reply instead of failing. -/
theorem load_skips_when_ready (jl : JsonLoads) (remote : Remote) (client_id : String)
    (scenario : Option JVal) (check : Bool) (st : ManagerState) (ci : ClientInfo)
    (hlook : getEntry st.clients client_id = some ci) (hready : ci.status = true) :
    load_scenario jl remote client_id scenario check st
      = ⟨.ok alreadyInitializedMsg, st, [], []⟩ := by
  unfold load_scenario
  rw [get_client_present hlook]
  cases scenario with
  | none => rfl
  | some sc => simp [hready]

/-- Witness for C2 at a ready session, a fresh scenario and `check = true`:
the skip reply comes back, the registry still holds handle `0` ready, and
no remote invocation happened. -/
theorem load_skips_when_ready_witness :
    load_scenario jl0 remoteGood "fs-1" (some sc1) true st1r
      = ⟨.ok alreadyInitializedMsg, st1r, [], []⟩ :=
  load_skips_when_ready jl0 remoteGood "fs-1" (some sc1) true st1r ⟨0, true⟩
    (by decide) (by decide)

theorem get_client_ok_registered {st st' : ManagerState} {client_id : String}
    {c : Nat} {b : Bool} (h : get_client st client_id = (.ok (c, b), st')) :
    getEntry st'.clients client_id = some ⟨c, b⟩ := by
  unfold get_client at h
  cases hl : getEntry st.clients client_id with
  | some ci =>
    rw [hl] at h
    obtain ⟨h1, h2⟩ := Prod.mk.injEq .. ▸ h
    obtain ⟨h3, h4⟩ := Prod.mk.injEq .. ▸ (Except.ok.injEq .. ▸ h1)
    subst h2; subst h3; subst h4
    cases ci; exact hl
  | none =>
    rw [hl] at h
    cases hcat : getEntry st.class_to_path_mapping (toolClassOf client_id) with
    | none => rw [hcat] at h; exact absurd (congrArg Prod.fst h) (by simp)
    | some path =>
      rw [hcat] at h
      obtain ⟨h1, h2⟩ := Prod.mk.injEq .. ▸ h
      obtain ⟨h3, h4⟩ := Prod.mk.injEq .. ▸ (Except.ok.injEq .. ▸ h1)
      subst h2; subst h3; subst h4
      exact getEntry_updEntry_self ..

/-- C9: when the session is not ready (whether just created or already
registered) and the scenario is `None` or falsy, `load_scenario` makes no
remote call, prints nothing, leaves the session not-ready, and returns the
same "already initialized" skip reply — while `get_client` has still
registered a handle for the identifier. -/
theorem load_scenario_falsy_scenario_skips (jl : JsonLoads) (remote : Remote)
    (client_id : String) (scenario : Option JVal) (check : Bool)
    (st st' : ManagerState) (client : Nat)
    (hgc : get_client st client_id = (.ok (client, false), st'))
    (hfalsy : pyTruthy scenario = false) :
    load_scenario jl remote client_id scenario check st
      = ⟨.ok alreadyInitializedMsg, st', [], []⟩
    ∧ getEntry st'.clients client_id = some ⟨client, false⟩ := by
  refine ⟨?_, get_client_ok_registered hgc⟩
  unfold load_scenario
  rw [hgc]
  cases scenario with
  | none => rfl
  | some sc => simp [pyTruthy] at hfalsy; simp [hfalsy]

/-- Witness for C9: a first reference to `"calc-7"` with a `None` scenario
returns the skip reply and registers a not-ready handle. -/
theorem load_scenario_falsy_scenario_skips_witness :
    load_scenario jl0 remoteGood "calc-7" none true st0
      = ⟨.ok alreadyInitializedMsg,
         ⟨[("calc-7", ⟨0, false⟩)], catalog0, [], 1⟩, [], []⟩
    ∧ getEntry (⟨[("calc-7", ⟨0, false⟩)], catalog0, [], 1⟩ : ManagerState).clients "calc-7"
      = some ⟨0, false⟩ :=
  load_scenario_falsy_scenario_skips jl0 remoteGood "calc-7" none true st0
    ⟨[("calc-7", ⟨0, false⟩)], catalog0, [], 1⟩ 0 (by decide) (by decide)

/-- C6: `call_tool` (for any tool name, including delegated load names) on
a session id whose derived group is absent from the catalog propagates the
`KeyError` from `get_client`, makes no remote call, and leaves the whole
state — in particular the registry — unchanged. -/
theorem call_tool_unknown_group_fails (jl : JsonLoads) (remote : Remote)
    (tool_name : String) (tool_args : JVal) (client_id : String) (st : ManagerState)
    (habsent : getEntry st.clients client_id = none)
    (hnogroup : getEntry st.class_to_path_mapping (toolClassOf client_id) = none) :
    call_tool jl remote tool_name tool_args client_id st
      = ⟨.error (.keyError (toolClassOf client_id)), st, [], []⟩ := by
  unfold call_tool
  split
  · unfold load_scenario
    simp [get_client, habsent, hnogroup, Except.map]
  · unfold call_tool_generic
    simp [get_client, habsent, hnogroup]

/-- Witness for C6: invoking `"tick"` for the unknown group `"clock"` on
the empty registry fails with that group's `KeyError` and returns the
state unchanged. -/
theorem call_tool_unknown_group_fails_witness :
    call_tool jl0 remoteGood "tick" (.obj .nil) "clock-1" st0
      = ⟨.error (.keyError "clock"), st0, [], []⟩ := by
  have h := call_tool_unknown_group_fails jl0 remoteGood "tick" (.obj .nil) "clock-1" st0
    (by decide) (by decide)
  have hg : toolClassOf "clock-1" = "clock" := by decide
  rw [hg] at h
  exact h

/-- C8 counterexample: an interleaving of two concurrent first references
to `"fs-1"` in which both callers pass the registry check before either
registers.  Two `Client(...)` constructions happen, the second
registration overwrites the first, and the callers observe different
handles — refuting atomicity of `get_client`. -/
theorem get_client_race_counterexample :
    (runRace "fs-1" ⟨st0, .start, .start, 0⟩
        [true, false, true, true, false, false]).constructions = 2
    ∧ (runRace "fs-1" ⟨st0, .start, .start, 0⟩
        [true, false, true, true, false, false]).t1.observed = some 0
    ∧ (runRace "fs-1" ⟨st0, .start, .start, 0⟩
        [true, false, true, true, false, false]).t2.observed = some 1
    ∧ getEntry (runRace "fs-1" ⟨st0, .start, .start, 0⟩
        [true, false, true, true, false, false]).mgr.clients "fs-1"
      = some ⟨1, false⟩ := by
  decide

/-- C8 (amended): without interleaving, `get_client` is idempotent for a
fresh identifier — the first call constructs and registers one not-ready
handle, and a second call returns that same handle without constructing
or registering anything. -/
theorem get_client_sequential_single_handle (st : ManagerState) (client_id p : String)
    (habsent : getEntry st.clients client_id = none)
    (hgroup : getEntry st.class_to_path_mapping (toolClassOf client_id) = some p) :
    get_client st client_id
      = (.ok (st.nextClient, false),
         { st with clients := updEntry st.clients client_id ⟨st.nextClient, false⟩
                   nextClient := st.nextClient + 1 })
    ∧ get_client (get_client st client_id).2 client_id
      = (.ok (st.nextClient, false), (get_client st client_id).2) := by
  have h1 : get_client st client_id
      = (.ok (st.nextClient, false),
         { st with clients := updEntry st.clients client_id ⟨st.nextClient, false⟩
                   nextClient := st.nextClient + 1 }) := by
    simp [get_client, habsent, hgroup]
  refine ⟨h1, ?_⟩
  rw [h1]
  simp [get_client, getEntry_updEntry_self]

/-- Witness for C8's amended theorem at the fresh identifier `"fs-1"`. -/
theorem get_client_sequential_single_handle_witness :
    get_client st0 "fs-1" = (.ok (0, false), st1)
    ∧ get_client (get_client st0 "fs-1").2 "fs-1"
      = (.ok (0, false), (get_client st0 "fs-1").2) := by
  have h := get_client_sequential_single_handle st0 "fs-1" "/srv/fs_server.py"
    (by decide) (by decide)
  exact ⟨by rw [h.1]; decide, h.2⟩

/-- C4 counterexample: for the registered session `"fs-1"` of `st1`,
`close_client` attempts the resource release first and removes the
registry entry only afterwards — its event trace is release-then-remove,
so "removes the entry strictly before releasing" fails on the code. -/
theorem close_client_order_counterexample :
    getEntry st1.clients "fs-1" = some ⟨0, false⟩
    ∧ (close_client (fun _ => none) st1 "fs-1").events
      = [.releaseAttempt 0 true, .removeEntry "fs-1"]
    ∧ removalPrecedesRelease (close_client (fun _ => none) st1 "fs-1").events = false := by
  decide

/-- C4 (amended): for every existing session, `close_client` first
attempts to release the client resource and then — in the `finally` block,
hence regardless of a release failure — deletes the registry entry; after
the call the identifier no longer resolves in the registry. -/
theorem close_client_releases_then_removes (closeFails : Nat → Option String)
    (st : ManagerState) (client_id : String) (ci : ClientInfo)
    (hlook : getEntry st.clients client_id = some ci)
    (hnodup : (st.clients.map Prod.fst).Nodup) :
    (close_client closeFails st client_id).events
      = [.releaseAttempt ci.client (closeFails ci.client == none), .removeEntry client_id]
    ∧ (close_client closeFails st client_id).state.clients
      = delEntry st.clients client_id
    ∧ getEntry (close_client closeFails st client_id).state.clients client_id = none := by
  unfold close_client
  rw [hlook]
  exact ⟨rfl, rfl, getEntry_delEntry_self _ _ hnodup⟩

/-- Witness for C4's amended theorem: closing `"fs-1"` while its release
raises still removes the entry. -/
theorem close_client_releases_then_removes_witness :
    (close_client (fun _ => some "EPIPE") st1 "fs-1").events
      = [.releaseAttempt 0 ((fun (_ : Nat) => some "EPIPE") 0 == none), .removeEntry "fs-1"]
    ∧ (close_client (fun _ => some "EPIPE") st1 "fs-1").state.clients
      = delEntry st1.clients "fs-1"
    ∧ getEntry (close_client (fun _ => some "EPIPE") st1 "fs-1").state.clients "fs-1"
      = none :=
  close_client_releases_then_removes (fun _ => some "EPIPE") st1 "fs-1" ⟨0, false⟩
    (by decide) (by decide)

theorem closeStep_printed_mono (closeFails : Nat → Option String) (ids : List String)
    (st : ManagerState) (acc : List String) (x : String) (hx : x ∈ acc) :
    x ∈ (ids.foldl (closeStep closeFails) (st, acc)).2 := by
  induction ids generalizing st acc with
  | nil => simpa using hx
  | cons cid rest ih =>
    simp only [List.foldl_cons]
    exact ih _ _ (by simp [closeStep, hx])

theorem close_fold_clients (closeFails : Nat → Option String) :
    ∀ (l : List (String × ClientInfo)) (st : ManagerState) (acc : List String),
      st.clients = l → (l.map Prod.fst).Nodup →
      ((l.map Prod.fst).foldl (closeStep closeFails) (st, acc)).1.clients = [] := by
  intro l
  induction l with
  | nil =>
    intro st acc hcl _
    simpa using hcl
  | cons p rest ih =>
    intro st acc hcl hnd
    obtain ⟨cid, ci⟩ := p
    simp only [List.map_cons, List.foldl_cons]
    have hget : getEntry st.clients cid = some ci := by rw [hcl]; simp [getEntry]
    have hstep : (closeStep closeFails (st, acc) cid).1.clients = rest := by
      simp [closeStep, close_client, hget, hcl, getEntry, delEntry]
    simp only [List.map_cons, List.nodup_cons] at hnd
    exact ih _ _ hstep hnd.2

theorem close_fold_closed_msg (closeFails : Nat → Option String) :
    ∀ (l : List (String × ClientInfo)) (st : ManagerState) (acc : List String)
      (cid : String),
      st.clients = l → cid ∈ l.map Prod.fst →
      s!"Client {cid} closed and removed"
        ∈ ((l.map Prod.fst).foldl (closeStep closeFails) (st, acc)).2 := by
  intro l
  induction l with
  | nil =>
    intro st acc cid _ hmem
    simp at hmem
  | cons p rest ih =>
    intro st acc cid hcl hmem
    obtain ⟨k, ci⟩ := p
    have hget : getEntry st.clients k = some ci := by rw [hcl]; simp [getEntry]
    rcases (by simpa using hmem : cid = k ∨ cid ∈ rest.map Prod.fst) with h | h
    · subst h
      simp only [List.map_cons, List.foldl_cons]
      apply closeStep_printed_mono
      simp [closeStep, close_client, hget]
    · simp only [List.map_cons, List.foldl_cons]
      have hstep : (closeStep closeFails (st, acc) k).1.clients = rest := by
        simp [closeStep, close_client, hget, hcl, getEntry, delEntry]
      exact ih _ _ _ hstep h

theorem close_fold_error_msg (closeFails : Nat → Option String) :
    ∀ (l : List (String × ClientInfo)) (st : ManagerState) (acc : List String)
      (cid : String) (ci : ClientInfo) (m : String),
      st.clients = l → (l.map Prod.fst).Nodup → (cid, ci) ∈ l →
      closeFails ci.client = some m →
      s!"Error closing client {cid}: {m}"
        ∈ ((l.map Prod.fst).foldl (closeStep closeFails) (st, acc)).2 := by
  intro l
  induction l with
  | nil =>
    intro st acc cid ci m _ _ hmem _
    simp at hmem
  | cons p rest ih =>
    intro st acc cid ci m hcl hnd hmem hfail
    obtain ⟨k, kci⟩ := p
    have hget : getEntry st.clients k = some kci := by rw [hcl]; simp [getEntry]
    simp only [List.map_cons, List.nodup_cons] at hnd
    rcases List.mem_cons.mp hmem with h | h
    · obtain ⟨h1, h2⟩ := Prod.mk.injEq .. ▸ h
      subst h1; subst h2
      simp only [List.map_cons, List.foldl_cons]
      apply closeStep_printed_mono
      simp [closeStep, close_client, hget, hfail]
    · simp only [List.map_cons, List.foldl_cons]
      have hstep : (closeStep closeFails (st, acc) k).1.clients = rest := by
        simp [closeStep, close_client, hget, hcl, getEntry, delEntry]
      exact ih _ _ _ _ _ hstep hnd.2 h hfail

/-- C5: `close_all_clients` removes every registry entry — the registry is
empty afterwards for every combination of release failures — every session
is reported closed-and-removed (so an individual failure aborts nothing),
and every failed release is itself reported. -/
theorem close_all_clients_empties_registry (closeFails : Nat → Option String)
    (st : ManagerState) (ig : Bool)
    (hnodup : (st.clients.map Prod.fst).Nodup) :
    (close_all_clients closeFails st ig).1.clients = []
    ∧ (∀ cid ∈ st.clients.map Prod.fst,
        s!"Client {cid} closed and removed" ∈ (close_all_clients closeFails st ig).2)
    ∧ (∀ cid ci m, (cid, ci) ∈ st.clients → closeFails ci.client = some m →
        s!"Error closing client {cid}: {m}" ∈ (close_all_clients closeFails st ig).2) := by
  refine ⟨?_, ?_, ?_⟩
  · simpa [close_all_clients] using
      close_fold_clients closeFails st.clients st [] rfl hnodup
  · intro cid hmem
    simpa [close_all_clients] using
      close_fold_closed_msg closeFails st.clients st [] cid rfl hmem
  · intro cid ci m hmem hfail
    simpa [close_all_clients] using
      close_fold_error_msg closeFails st.clients st [] cid ci m rfl hnodup hmem hfail

/-- Witness for C5: two registered sessions, one of whose releases raises;
the registry still ends empty, both sessions are reported removed, and the
failed release is reported. -/
theorem close_all_clients_empties_registry_witness :
    (close_all_clients (fun h => if h = 0 then some "EPIPE" else none)
        ⟨[("fs-1", ⟨0, false⟩), ("calc-2", ⟨1, true⟩)], catalog0, [], 2⟩ false).1.clients = []
    ∧ (∀ cid ∈ (⟨[("fs-1", ⟨0, false⟩), ("calc-2", ⟨1, true⟩)], catalog0, [], 2⟩
          : ManagerState).clients.map Prod.fst,
        s!"Client {cid} closed and removed"
          ∈ (close_all_clients (fun h => if h = 0 then some "EPIPE" else none)
              ⟨[("fs-1", ⟨0, false⟩), ("calc-2", ⟨1, true⟩)], catalog0, [], 2⟩ false).2)
    ∧ (∀ cid ci m, (cid, ci) ∈ (⟨[("fs-1", ⟨0, false⟩), ("calc-2", ⟨1, true⟩)],
          catalog0, [], 2⟩ : ManagerState).clients →
        (fun (h : Nat) => if h = 0 then some "EPIPE" else none) ci.client = some m →
        s!"Error closing client {cid}: {m}"
          ∈ (close_all_clients (fun h => if h = 0 then some "EPIPE" else none)
              ⟨[("fs-1", ⟨0, false⟩), ("calc-2", ⟨1, true⟩)], catalog0, [], 2⟩ false).2) :=
  close_all_clients_empties_registry (fun h => if h = 0 then some "EPIPE" else none)
    ⟨[("fs-1", ⟨0, false⟩), ("calc-2", ⟨1, true⟩)], catalog0, [], 2⟩ false (by decide)

/-- C3 counterexample: on the registered session `"fs-1"`, `call_tool`
returns the very same `None`-valued success both under a remote that
rejects the call before execution (`ToolError`) and under a remote that
raises an unknown error class — the caller-visible return value carries no
failure at all, let alone a distinguished one, refuting "returns the
failure to the immediate caller as a distinguished outcome". -/
theorem call_tool_failure_return_counterexample :
    (call_tool jl0 remoteRejects "fs-delete" (.obj .nil) "fs-1" st1).result = .ok none
    ∧ (call_tool jl0 remoteBroken "fs-delete" (.obj .nil) "fs-1" st1).result = .ok none
    ∧ (call_tool jl0 remoteRejects "fs-delete" (.obj .nil) "fs-1" st1).result
      = (call_tool jl0 remoteBroken "fs-delete" (.obj .nil) "fs-1" st1).result := by
  decide

/-- C3 (amended): a failing non-load invocation never raises to the caller
and never changes the state — the failure is swallowed into a `None`
return — while the two failure classes are distinguished only in the
printed diagnostic: "fail before execution" for a rejection (`ToolError`),
"raise an unexpected error" for anything else. -/
theorem call_tool_failure_caught_and_reported (jl : JsonLoads) (remote : Remote)
    (tool_name : String) (args : JVal) (client_id : String) (st : ManagerState)
    (ci : ClientInfo) (m : String)
    (hnotload : strContains tool_name "load_scenario" = false)
    (hnotstr : args.isStr = false)
    (hlook : getEntry st.clients client_id = some ci)
    (hfail : remote ci.client (stripToolClass tool_name) args = .toolErr m
           ∨ remote ci.client (stripToolClass tool_name) args = .err m) :
    call_tool jl remote tool_name args client_id st
      = ⟨.ok none, st, [⟨ci.client, stripToolClass tool_name, args⟩],
         [if remote ci.client (stripToolClass tool_name) args = .toolErr m
          then s!"{tool_name} fail before execution: {m}"
          else s!"{tool_name} raise an unexpected error: {m}"]⟩ := by
  unfold call_tool
  simp only [hnotload, Bool.false_eq_true, if_false]
  unfold call_tool_generic
  rw [get_client_present hlook]
  unfold call_tool_async
  cases args with
  | str s => simp [JVal.isStr] at hnotstr
  | null => rcases hfail with h | h <;> simp [h, PyError.msg]
  | jbool b => rcases hfail with h | h <;> simp [h, PyError.msg]
  | num n => rcases hfail with h | h <;> simp [h, PyError.msg]
  | arr xs => rcases hfail with h | h <;> simp [h, PyError.msg]
  | obj fs => rcases hfail with h | h <;> simp [h, PyError.msg]

/-- Witness for C3's amended theorem: a rejected `"fs-delete"` call on
`"fs-1"` returns `None`, leaves the state as it was, and prints the
rejection diagnostic. -/
theorem call_tool_failure_caught_and_reported_witness :
    call_tool jl0 remoteRejects "fs-delete" (.obj .nil) "fs-1" st1
      = ⟨.ok none, st1, [⟨0, stripToolClass "fs-delete", .obj .nil⟩],
         [if remoteRejects 0 (stripToolClass "fs-delete") (.obj .nil)
             = .toolErr "refused"
          then "fs-delete fail before execution: refused"
          else "fs-delete raise an unexpected error: refused"]⟩ :=
  call_tool_failure_caught_and_reported jl0 remoteRejects "fs-delete" (.obj .nil)
    "fs-1" st1 ⟨0, false⟩ "refused" (by decide) (by decide) (by decide)
    (Or.inl (by decide))

/-- C7: textual tool arguments are parsed before dispatch.  Invalid text
makes the bridge call fail with the dedicated decode error — without any
remote invocation — and `call_tool` swallows that failure into a `None`
return while printing the decode failure; valid text reaches the remote
side as the parsed structured value, never as raw text. -/
theorem call_tool_text_args_parsed_before_dispatch (jl : JsonLoads) (remote : Remote)
    (tool_name s : String) (client_id : String) (st : ManagerState) (ci : ClientInfo)
    (hnotload : strContains tool_name "load_scenario" = false)
    (hlook : getEntry st.clients client_id = some ci) :
    (jl s = none →
       call_tool_async jl remote tool_name (.str s) ci.client client_id st
         = ⟨.error (.jsonDecodeError s), st, [], []⟩
       ∧ call_tool jl remote tool_name (.str s) client_id st
         = ⟨.ok none, st, [], [s!"{tool_name} raise an unexpected error: {s}"]⟩)
    ∧ (∀ v, jl s = some v →
        (call_tool jl remote tool_name (.str s) client_id st).calls
          = [⟨ci.client, stripToolClass tool_name, v⟩]) := by
  constructor
  · intro hbad
    have hasync : call_tool_async jl remote tool_name (.str s) ci.client client_id st
        = ⟨.error (.jsonDecodeError s), st, [], []⟩ := by
      unfold call_tool_async
      simp [hbad]
    refine ⟨hasync, ?_⟩
    unfold call_tool
    simp only [hnotload, Bool.false_eq_true, if_false]
    unfold call_tool_generic
    rw [get_client_present hlook]
    dsimp only
    rw [hasync]
    simp [PyError.msg]
  · intro v hgood
    unfold call_tool
    simp only [hnotload, Bool.false_eq_true, if_false]
    unfold call_tool_generic
    rw [get_client_present hlook]
    unfold call_tool_async
    simp only [hgood]
    cases hrem : remote ci.client (stripToolClass tool_name) v <;> simp [hrem]

/-- Witness for C7: unparseable text `"{oops"` fails with the decode error
and reaches no remote; the parseable text `"SC1"` reaches the remote as
the parsed object. -/
theorem call_tool_text_args_parsed_before_dispatch_witness :
    ((jl0 "\x7boops" = none →
       call_tool_async jl0 remoteGood "fs-delete" (.str "\x7boops") 0 "fs-1" st1
         = ⟨.error (.jsonDecodeError "\x7boops"), st1, [], []⟩
       ∧ call_tool jl0 remoteGood "fs-delete" (.str "\x7boops") "fs-1" st1
         = ⟨.ok none, st1, [], ["fs-delete raise an unexpected error: \x7boops"]⟩)
    ∧ (∀ v, jl0 "\x7boops" = some v →
        (call_tool jl0 remoteGood "fs-delete" (.str "\x7boops") "fs-1" st1).calls
          = [⟨0, stripToolClass "fs-delete", v⟩]))
    ∧ jl0 "\x7boops" = none
    ∧ (∀ v, jl0 "SC1" = some v →
        (call_tool jl0 remoteGood "fs-delete" (.str "SC1") "fs-1" st1).calls
          = [⟨0, stripToolClass "fs-delete", v⟩]) :=
  ⟨call_tool_text_args_parsed_before_dispatch jl0 remoteGood "fs-delete" "\x7boops"
      "fs-1" st1 ⟨0, false⟩ (by decide) (by decide),
   by decide,
   (call_tool_text_args_parsed_before_dispatch jl0 remoteGood "fs-delete" "SC1"
      "fs-1" st1 ⟨0, false⟩ (by decide) (by decide)).2⟩

theorem stripToolClass_load : stripToolClass "load_scenario" = "load_scenario" := by
  decide

theorem stripToolClass_save : stripToolClass "save_scenario" = "save_scenario" := by
  decide

/-- C1: for an existing not-ready session and a truthy scenario whose
remote load succeeds, a checked `load_scenario` first applies the scenario
through the remote `load_scenario` tool and then reads the state back
through `save_scenario`; the session's ready flag ends true exactly when
the echoed save parses back structurally equal to the scenario
(`echoVerified`), and on mismatch or on parse failure the session stays
not-ready while the mismatch is printed and the call still returns the
load result without raising. -/
theorem load_verify_marks_ready_iff_echo_matches (jl : JsonLoads) (remote : Remote)
    (client_id : String) (sc : JVal) (st : ManagerState) (c : Nat) (loadText : String)
    (hlook : getEntry st.clients client_id = some ⟨c, false⟩)
    (htruthy : sc.truthy = true)
    (hload : remote c "load_scenario" (.obj (.cons "scenario" sc .nil)) = .ok loadText) :
    (load_scenario jl remote client_id (some sc) true st).result = .ok loadText
    ∧ (load_scenario jl remote client_id (some sc) true st).calls.map
        RemoteCall.tool_name = ["load_scenario", "save_scenario"]
    ∧ getEntry (load_scenario jl remote client_id (some sc) true st).state.clients
        client_id = some ⟨c, echoVerified jl remote c sc⟩
    ∧ (echoVerified jl remote c sc = false →
        mismatchMsg ∈ (load_scenario jl remote client_id (some sc) true st).printed) := by
  have hgc : get_client st client_id = (.ok (c, false), st) := get_client_present hlook
  have hasync : call_tool_async jl remote "load_scenario"
      (.obj (.cons "scenario" sc .nil)) c client_id st
      = ⟨.ok loadText,
         add_log st client_id
           ⟨none, some ⟨"load_scenario", .obj (.cons "scenario" sc .nil), loadText⟩⟩,
         [⟨c, "load_scenario", .obj (.cons "scenario" sc .nil)⟩], []⟩ := by
    unfold call_tool_async
    rw [stripToolClass_load]
    dsimp only
    rw [hload]
  have hlook2 : getEntry (add_log st client_id
      ⟨none, some ⟨"load_scenario", .obj (.cons "scenario" sc .nil), loadText⟩⟩).clients
      client_id = some ⟨c, false⟩ := by
    rw [add_log_clients]; exact hlook
  have hgc2 := get_client_present hlook2
  unfold load_scenario
  rw [hgc]
  dsimp only
  simp only [htruthy, Bool.not_false, Bool.true_and, eq_self_iff_true, if_true]
  rw [hasync]
  dsimp only
  unfold call_tool_generic
  rw [hgc2]
  dsimp only
  unfold call_tool_async
  rw [stripToolClass_save]
  dsimp only
  cases hecho : remote c "save_scenario" (.obj .nil) with
  | ok text =>
    dsimp only
    cases hparse : jl text with
    | none =>
      dsimp only
      refine ⟨rfl, by simp, ?_, fun _ => by simp [mismatchMsg]⟩
      rw [add_log_clients, add_log_clients]
      simpa [echoVerified, hecho, hparse] using hlook
    | some v =>
      dsimp only
      by_cases hveq : sc = v
      · subst hveq
        simp only [if_pos rfl]
        simp only [if_true]
        refine ⟨by trivial, by simp, ?_, ?_⟩
        · have hlook3 : getEntry (add_log (add_log st client_id
              ⟨none, some ⟨"load_scenario", .obj (.cons "scenario" sc .nil), loadText⟩⟩)
              client_id ⟨none, some ⟨"save_scenario", .obj .nil, text⟩⟩).clients client_id
              = some ⟨c, false⟩ := by
            rw [add_log_clients]; exact hlook2
          rw [set_status_present hlook3]
          rw [getEntry_updEntry_self]
          simp [echoVerified, hecho, hparse]
        · intro hv
          simp [echoVerified, hecho, hparse] at hv
      · rw [if_neg hveq]
        dsimp only
        refine ⟨rfl, by simp, ?_, fun _ => by simp [mismatchMsg]⟩
        rw [add_log_clients, add_log_clients]
        have hv : echoVerified jl remote c sc = false := by
          simp [echoVerified, hecho, hparse]
          exact fun h => absurd h.symm hveq
        rw [hv]
        exact hlook
  | toolErr m =>
    dsimp only
    refine ⟨rfl, by simp, ?_, fun _ => by simp [mismatchMsg]⟩
    rw [add_log_clients]
    simpa [echoVerified, hecho] using hlook
  | err m =>
    dsimp only
    refine ⟨rfl, by simp, ?_, fun _ => by simp [mismatchMsg]⟩
    rw [add_log_clients]
    simpa [echoVerified, hecho] using hlook

/-- Witness for C1 under the mutated-echo remote: the verification fails,
the session stays not-ready, the mismatch is printed, and the call still
returns the load result. -/
theorem load_verify_marks_ready_iff_echo_matches_witness :
    (load_scenario jl0 remoteMutated "fs-1" (some sc0) true st1).result = .ok "done"
    ∧ (load_scenario jl0 remoteMutated "fs-1" (some sc0) true st1).calls.map
        RemoteCall.tool_name = ["load_scenario", "save_scenario"]
    ∧ getEntry (load_scenario jl0 remoteMutated "fs-1" (some sc0) true st1).state.clients
        "fs-1" = some ⟨0, echoVerified jl0 remoteMutated 0 sc0⟩
    ∧ (echoVerified jl0 remoteMutated 0 sc0 = false →
        mismatchMsg ∈ (load_scenario jl0 remoteMutated "fs-1" (some sc0) true st1).printed) :=
  load_verify_marks_ready_iff_echo_matches jl0 remoteMutated "fs-1" sc0 st1 0 "done"
    (by decide) (by decide) (by decide)

end MCPClientManager
